import Mathlib

/-!
Shallow embedding of the position-lifecycle engine of the `tgbot` trading
bot (src/models.py, src/config.py, src/trading/position_manager.py,
src/dex/jupiter.py, src/dex/oneinch.py, src/tg_bot/signal_parser.py).

Prices and amounts are embedded as rationals (`ℚ`); Python `float`
arithmetic is treated as exact field arithmetic.  External I/O (price
feeds, HTTP quote calls, RPC balance reads, swap broadcasts) is modelled
by explicit oracle records passed to each function, and the SQLite table
by a list of rows; an `UPDATE` is a record update on the addressed row.
-/

/-- `models.TradeDirection`. -/
inductive TradeDirection
  | LONG
  | SHORT
  deriving DecidableEq, Repr

/-- `models.Chain`. -/
inductive Chain
  | SOLANA
  | ETHEREUM
  | ETHEREUM_SEPOLIA
  | ETHEREUM_GOERLI
  | BSC
  | BASE
  | ARBITRUM
  deriving DecidableEq, Repr

/-- `models.PositionStatus`. -/
inductive PositionStatus
  | PENDING
  | ACTIVE
  | CLOSED_TP
  | CLOSED_SL
  | CLOSED_MANUAL
  | FAILED
  deriving DecidableEq, Repr

/-- `models.Signal` (timestamp omitted; it is never read by the engine). -/
structure Signal where
  direction : TradeDirection
  pair_name : String
  contract_address : String
  entry_price : ℚ
  take_profit : ℚ
  stop_loss : ℚ
  raw_message : String
  chain : Option Chain := none
  deriving DecidableEq, Repr

/-- `models.Signal.__post_init__`: construction validates the prices and,
for LONG signals, the ordering TP > entry > SL; a violation raises
`ValueError`, embedded as `Except.error`. -/
def mkSignal (direction : TradeDirection) (pair_name contract_address : String)
    (entry_price take_profit stop_loss : ℚ) (raw_message : String)
    (chain : Option Chain := none) : Except String Signal :=
  if entry_price ≤ 0 then Except.error "Entry price must be positive"
  else if take_profit ≤ 0 then Except.error "Take profit must be positive"
  else if stop_loss ≤ 0 then Except.error "Stop loss must be positive"
  else if direction = TradeDirection.LONG ∧
      ¬(take_profit > entry_price ∧ entry_price > stop_loss) then
    Except.error "Invalid LONG signal: TP > Entry > SL required"
  else
    Except.ok
      { direction, pair_name, contract_address, entry_price,
        take_profit, stop_loss, raw_message, chain }

/-- `config.TradingConfig`. -/
structure TradingConfig where
  capital_percent : ℚ := 5 / 100
  max_positions : Nat := 1
  slippage_tolerance : ℚ := 1 / 100
  price_check_interval : Nat := 10
  dry_run : Bool := true
  deriving DecidableEq, Repr

/-- `dex.base.Quote` (`raw_quote` kept as an opaque string payload). -/
structure Quote where
  input_token : String
  output_token : String
  input_amount : ℚ
  output_amount : ℚ
  price : ℚ
  price_impact : ℚ
  route : String
  raw_quote : String := ""
  deriving DecidableEq, Repr

/-- `models.TradeResult` (timestamp omitted; never read by the engine). -/
structure TradeResult where
  success : Bool
  tx_hash : Option String := none
  amount_in : ℚ := 0
  amount_out : ℚ := 0
  price : ℚ := 0
  gas_used : ℚ := 0
  error : Option String := none
  deriving DecidableEq, Repr

/-- `config.QUOTE_TOKENS[chain]["USDT"]`, as read by the engine via
`QUOTE_TOKENS.get(chain.value, \x7b\x7d).get("USDT")`. -/
def QUOTE_TOKENS_USDT : Chain → Option String
  | Chain.SOLANA => some "Es9vMFrzaCERmJfrF4H2FYD4KCoNkY11McCe8BenwNYB"
  | Chain.ETHEREUM => some "0xdAC17F958D2ee523a2206206994597C13D831ec7"
  | Chain.ETHEREUM_SEPOLIA => some "0x50ac23d5d36302aa90a89e9f601b3f4d8a7d92d0"
  | Chain.ETHEREUM_GOERLI => some "0x50ac23d5d36302aa90a89e9f601b3f4d8a7d92d0"
  | Chain.BSC => some "0x55d398326f99059fF775485246999027B3197955"
  | Chain.BASE => some "0xfde4C96c8593536E31F229EA8f37b2ADa2699bb2"
  | Chain.ARBITRUM => some "0xFd086bC7CD5C481DCC9C85ebE478A1C0b69FCbb9"

/-- One row of the `positions` SQLite table created by
`PositionManager._init_database`. -/
structure PositionRow where
  id : Nat
  chain : Chain
  token_address : String
  pair_name : String
  quote_token : String := "USDT"
  entry_amount_quote : ℚ := 0
  entry_amount_token : ℚ := 0
  actual_entry_price : ℚ := 0
  target_entry_price : ℚ
  take_profit_price : ℚ
  stop_loss_price : ℚ
  status : PositionStatus := PositionStatus.PENDING
  created_at : String
  opened_at : Option String := none
  closed_at : Option String := none
  entry_tx_hash : Option String := none
  exit_tx_hash : Option String := none
  exit_price : Option ℚ := none
  pnl_percent : Option ℚ := none
  pnl_absolute : Option ℚ := none
  raw_signal : String := ""
  deriving DecidableEq, Repr

/-- `models.Position.calculate_pnl` (the field set it reads —
`actual_entry_price`, `entry_amount_token` — is shared with the row
embedding, so it is defined on `PositionRow`). -/
def PositionRow.calculate_pnl (row : PositionRow) (exit_price : ℚ) : ℚ × ℚ :=
  if row.actual_entry_price ≤ 0 then (0, 0)
  else
    (((exit_price - row.actual_entry_price) / row.actual_entry_price) * 100,
     (exit_price - row.actual_entry_price) * row.entry_amount_token)

/-- The regex/field-extraction layer of `tg_bot.signal_parser.SignalParser`:
the result of running the `PATTERNS` regexes and `_is_test_signal` over one
message.  The control flow of `parse` below consumes these results exactly
as the source does; the regex engine itself is outside the embedding. -/
structure Extracted where
  is_test : Bool
  direction : Option TradeDirection
  pair_name : Option String
  contract_address : Option String
  entry_price : Option ℚ
  take_profit : Option ℚ
  stop_loss : Option ℚ
  raw_message : String
  deriving DecidableEq, Repr

/-- `SignalParser.parse_test_signal`: on a test-pattern match, builds a
LONG signal with defaults pair `TEST/USDT`, entry 0.1, TP 0.12, SL 0.09,
overridden by an extracted pair name / entry price (TP = entry × 1.2,
SL = entry × 0.9).  A `ValueError` from the `Signal` constructor escapes
(the call in `parse` sits before its `try` block), hence `Except`. -/
def SignalParser.parse_test_signal (ext : Extracted) : Except String (Option Signal) :=
  if ext.is_test = false then Except.ok none
  else
    let pair := ext.pair_name.getD "TEST/USDT"
    let entry := ext.entry_price.getD (1 / 10)
    let tp := match ext.entry_price with
      | some e => e * (12 / 10)
      | none => 12 / 100
    let sl := match ext.entry_price with
      | some e => e * (9 / 10)
      | none => 9 / 100
    (mkSignal TradeDirection.LONG pair "0x5a3C7Abb3E5a7EAc2Ca421E20E691EfC885D7D37"
        entry tp sl ext.raw_message).map some

/-- `SignalParser.parse`: test signals first; then the direction gate
(SHORT signals are dropped with "spot trading only"); then pair, address
and the three prices (`all([...])` under Python truthiness, so a price of
0.0 counts as missing); finally `Signal` construction, whose `ValueError`
is caught and turned into `None`. -/
def SignalParser.parse (ext : Extracted) : Except String (Option Signal) :=
  match SignalParser.parse_test_signal ext with
  | Except.error e => Except.error e
  | Except.ok (some s) => Except.ok (some s)
  | Except.ok none =>
    match ext.direction with
    | none => Except.ok none
    | some TradeDirection.SHORT => Except.ok none
    | some TradeDirection.LONG =>
      match ext.pair_name with
      | none => Except.ok none
      | some pair =>
        match ext.contract_address with
        | none => Except.ok none
        | some ca =>
          let entry := ext.entry_price.getD 0
          let tp := ext.take_profit.getD 0
          let sl := ext.stop_loss.getD 0
          if entry = 0 ∨ tp = 0 ∨ sl = 0 then Except.ok none
          else
            match mkSignal TradeDirection.LONG pair ca entry tp sl ext.raw_message with
            | Except.error _ => Except.ok none
            | Except.ok s => Except.ok (some s)

/-- The `dex.base.BaseDEX` capability surface as seen by the engine during
one monitoring pass, with every network interaction an oracle. -/
structure DexEnv where
  get_token_price : String → Option ℚ
  get_token_balance : String → ℚ
  get_quote : String → String → ℚ → ℚ → Option Quote
  execute_swap : Quote → Bool → TradeResult

/-- The dictionary `_get_open_positions` builds for one row: exactly the
columns of its `SELECT` list.  `entry_amount_quote` is **not** selected
there, so the dictionary never carries it; it is kept as an `Option`
because `_execute_exit` later reads it with `.get("entry_amount_quote", 0)`. -/
structure PosData where
  id : Nat
  chain : Chain
  token_address : String
  pair_name : String
  quote_token : String
  entry_amount_token : ℚ
  actual_entry_price : ℚ
  target_entry_price : ℚ
  take_profit_price : ℚ
  stop_loss_price : ℚ
  status : PositionStatus
  entry_amount_quote : Option ℚ
  deriving DecidableEq, Repr

namespace PositionManager

/-- Row → `pos_data` dictionary, per the `SELECT` in
`PositionManager._get_open_positions` (no `entry_amount_quote` column). -/
def get_open_positions_row (row : PositionRow) : PosData :=
  { id := row.id
    chain := row.chain
    token_address := row.token_address
    pair_name := row.pair_name
    quote_token := row.quote_token
    entry_amount_token := row.entry_amount_token
    actual_entry_price := row.actual_entry_price
    target_entry_price := row.target_entry_price
    take_profit_price := row.take_profit_price
    stop_loss_price := row.stop_loss_price
    status := row.status
    entry_amount_quote := none }

/-- The two exit tags of `PositionManager._execute_exit`. -/
inductive ExitTag
  | tp
  | sl
  deriving DecidableEq, Repr

/-- `PositionManager._execute_entry`, as the `UPDATE` it performs on the
addressed row (identity when any step fails).  Reads go through the
`pos_data` dictionary; the trade size is `capital_percent` of the fresh
quote-token balance. -/
def execute_entry (cfg : TradingConfig) (dex : DexEnv) (now : String)
    (row : PositionRow) (_current_price : ℚ) : PositionRow :=
  let pd := get_open_positions_row row
  match QUOTE_TOKENS_USDT pd.chain with
  | none => row
  | some quote_token =>
    let balance := dex.get_token_balance quote_token
    let trade_amount := balance * cfg.capital_percent
    if trade_amount ≤ 0 then row
    else
      match dex.get_quote quote_token pd.token_address trade_amount cfg.slippage_tolerance with
      | none => row
      | some quote =>
        let result := dex.execute_swap quote cfg.dry_run
        if result.success then
          { row with
            status := PositionStatus.ACTIVE
            entry_amount_quote := trade_amount
            entry_amount_token := result.amount_out
            actual_entry_price := result.price
            opened_at := some now
            entry_tx_hash := result.tx_hash }
        else row

/-- `PositionManager._execute_exit`, returning the updated row together
with the `pnl_percent` argument handed to the `on_position_closed`
callback (`none` when the exit did not complete).  Note
`pos_data.get("entry_amount_quote", 0)`: the monitoring `SELECT` omits
that column, so the default 0 is always taken. -/
def execute_exit_with_callback (cfg : TradingConfig) (dex : DexEnv) (now : String)
    (row : PositionRow) (current_price : ℚ) (exit_type : ExitTag) :
    PositionRow × Option ℚ :=
  let pd := get_open_positions_row row
  let token_amount := pd.entry_amount_token
  if token_amount ≤ 0 then (row, none)
  else
    match QUOTE_TOKENS_USDT pd.chain with
    | none => (row, none)
    | some quote_token =>
      match dex.get_quote pd.token_address quote_token token_amount cfg.slippage_tolerance with
      | none => (row, none)
      | some quote =>
        let result := dex.execute_swap quote cfg.dry_run
        if result.success then
          let entry_price := pd.actual_entry_price
          let pnl_percent :=
            if entry_price > 0 then ((current_price - entry_price) / entry_price) * 100 else 0
          let pnl_absolute := result.amount_out - (pd.entry_amount_quote.getD 0)
          let status :=
            if exit_type = ExitTag.tp then PositionStatus.CLOSED_TP else PositionStatus.CLOSED_SL
          ({ row with
             status := status
             closed_at := some now
             exit_tx_hash := result.tx_hash
             exit_price := some current_price
             pnl_percent := some pnl_percent
             pnl_absolute := some pnl_absolute }, some pnl_percent)
        else (row, none)

/-- `PositionManager._execute_exit`, store effect only. -/
def execute_exit (cfg : TradingConfig) (dex : DexEnv) (now : String)
    (row : PositionRow) (current_price : ℚ) (exit_type : ExitTag) : PositionRow :=
  (execute_exit_with_callback cfg dex now row current_price exit_type).1

/-- `PositionManager._check_position` for one open position: resolve the
chain's DEX, poll the price (`if not current_price` also skips a price of
exactly 0 under Python truthiness), then apply the pending-entry or
active-exit decision rule. -/
def check_position (cfg : TradingConfig) (dexes : Chain → Option DexEnv) (now : String)
    (row : PositionRow) : PositionRow :=
  let pd := get_open_positions_row row
  match dexes pd.chain with
  | none => row
  | some dex =>
    match dex.get_token_price pd.token_address with
    | none => row
    | some current_price =>
      if current_price = 0 then row
      else if pd.status = PositionStatus.PENDING then
        if current_price ≤ pd.target_entry_price then
          execute_entry cfg dex now row current_price
        else row
      else if pd.status = PositionStatus.ACTIVE then
        if current_price ≥ pd.take_profit_price then
          execute_exit cfg dex now row current_price ExitTag.tp
        else if current_price ≤ pd.stop_loss_price then
          execute_exit cfg dex now row current_price ExitTag.sl
        else row
      else row

/-- `PositionManager._count_active_positions`:
`SELECT COUNT(*) WHERE status IN ('pending', 'active')`. -/
def count_active_positions (store : List PositionRow) : Nat :=
  (store.filter fun r =>
    r.status = PositionStatus.PENDING ∨ r.status = PositionStatus.ACTIVE).length

/-- The externally observable steps `process_signal` takes, in order. -/
inductive SigStep
  | countActive
  | detectChain
  | dexLookup
  | insertRow
  deriving DecidableEq, Repr

/-- The fresh `pending` row `process_signal` inserts via `_save_position`. -/
def new_position_row (signal : Signal) (chain : Chain) (id : Nat) (now : String) :
    PositionRow :=
  { id := id
    chain := chain
    token_address := signal.contract_address
    pair_name := signal.pair_name
    quote_token := "USDT"
    target_entry_price := signal.entry_price
    take_profit_price := signal.take_profit
    stop_loss_price := signal.stop_loss
    status := PositionStatus.PENDING
    created_at := now
    raw_signal := signal.raw_message }

/-- `PositionManager.process_signal`: capacity gate, chain detection,
DEX-registry lookup, then insert.  Returns the created row (if any), the
store after the call, and the trace of steps actually executed. -/
def process_signal (cfg : TradingConfig) (dexes : Chain → Option DexEnv)
    (detect_chain : String → Option Chain) (now : String)
    (store : List PositionRow) (signal : Signal) :
    Option PositionRow × List PositionRow × List SigStep :=
  let active_count := count_active_positions store
  if cfg.max_positions ≤ active_count then
    (none, store, [SigStep.countActive])
  else
    match detect_chain signal.contract_address with
    | none => (none, store, [SigStep.countActive, SigStep.detectChain])
    | some chain =>
      match dexes chain with
      | none =>
        (none, store, [SigStep.countActive, SigStep.detectChain, SigStep.dexLookup])
      | some _ =>
        let row := new_position_row signal chain (store.length + 1) now
        (some row, store ++ [row],
         [SigStep.countActive, SigStep.detectChain, SigStep.dexLookup, SigStep.insertRow])

end PositionManager

/-- Effects of the real (non-dry-run) execution path of `execute_swap`:
the swap-transaction HTTP request, the local signing step, and the
broadcast of the signed transaction. -/
inductive SwapEffect
  | swapRequest
  | sign
  | broadcast
  deriving DecidableEq, Repr

namespace JupiterDEX

/-- Network oracle for `JupiterDEX.execute_swap`'s real path:
the swap-API call (exception / non-200 collapse to `error`; `ok none`
means no `swapTransaction` field) and the RPC broadcast. -/
structure SwapNet where
  swap_response : Except String (Option String)
  send_result : Except String String

/-- `JupiterDEX.execute_swap` (src/dex/jupiter.py).  The wallet guard
comes first; the dry-run branch returns the quote's expected amounts with
the `DRY_RUN_NO_TX` sentinel and performs no effect; the real path
requests, signs and broadcasts.  The second component is the trace of
real-execution effects performed. -/
def execute_swap (keypair : Option String) (net : SwapNet)
    (quote : Quote) (dry_run : Bool) : TradeResult × List SwapEffect :=
  if keypair.isNone then
    ({ success := false, error := some "Wallet not initialized. Provide private key." }, [])
  else if dry_run then
    ({ success := true
       amount_in := quote.input_amount
       amount_out := quote.output_amount
       price := quote.price
       tx_hash := some "DRY_RUN_NO_TX" }, [])
  else
    match net.swap_response with
    | Except.error e => ({ success := false, error := some e }, [SwapEffect.swapRequest])
    | Except.ok none =>
      ({ success := false, error := some "No swap transaction returned" },
       [SwapEffect.swapRequest])
    | Except.ok (some _) =>
      match net.send_result with
      | Except.error e =>
        ({ success := false, error := some e },
         [SwapEffect.swapRequest, SwapEffect.sign, SwapEffect.broadcast])
      | Except.ok tx =>
        ({ success := true
           tx_hash := some tx
           amount_in := quote.input_amount
           amount_out := quote.output_amount
           price := quote.price },
         [SwapEffect.swapRequest, SwapEffect.sign, SwapEffect.broadcast])

/-- `JupiterDEX.get_token_balance`: `0` without a wallet; otherwise the
parsed `uiAmount` of the first token account (`ok none` = no accounts,
`uiAmount or 0` folded in), with every exception caught to `0`. -/
def get_token_balance (wallet_address : Option String)
    (fetch : Except String (Option ℚ)) : ℚ :=
  match wallet_address with
  | none => 0
  | some _ =>
    match fetch with
    | Except.error _ => 0
    | Except.ok none => 0
    | Except.ok (some ui_amount) => ui_amount

/-- `JupiterDEX.get_native_balance`: lamports / 1e9, exceptions to `0`. -/
def get_native_balance (wallet_address : Option String)
    (fetch : Except String ℚ) : ℚ :=
  match wallet_address with
  | none => 0
  | some _ =>
    match fetch with
    | Except.error _ => 0
    | Except.ok lamports => lamports / 1000000000

end JupiterDEX

namespace OneInchDEX

/-- Network oracle for `OneInchDEX.execute_swap`'s real path: the 1inch
swap-API call, the raw-transaction broadcast, and the awaited receipt. -/
structure SwapNet where
  swap_response : Except String Unit
  send_result : Except String String
  receipt_status_ok : Bool
  gas_used : ℚ

/-- `OneInchDEX.execute_swap` (src/dex/oneinch.py).  Wallet guard first,
then the dry-run branch (quote amounts, `DRY_RUN_NO_TX`, no effect), then
request/sign/broadcast and the receipt check (`status == 1`). -/
def execute_swap (account : Option String) (net : SwapNet)
    (quote : Quote) (dry_run : Bool) : TradeResult × List SwapEffect :=
  if account.isNone then
    ({ success := false, error := some "Wallet not initialized. Provide private key." }, [])
  else if dry_run then
    ({ success := true
       amount_in := quote.input_amount
       amount_out := quote.output_amount
       price := quote.price
       tx_hash := some "DRY_RUN_NO_TX" }, [])
  else
    match net.swap_response with
    | Except.error e => ({ success := false, error := some e }, [SwapEffect.swapRequest])
    | Except.ok _ =>
      match net.send_result with
      | Except.error e =>
        ({ success := false, error := some e },
         [SwapEffect.swapRequest, SwapEffect.sign, SwapEffect.broadcast])
      | Except.ok tx =>
        if net.receipt_status_ok then
          ({ success := true
             tx_hash := some tx
             amount_in := quote.input_amount
             amount_out := quote.output_amount
             price := quote.price
             gas_used := net.gas_used },
           [SwapEffect.swapRequest, SwapEffect.sign, SwapEffect.broadcast])
        else
          ({ success := false, tx_hash := some tx, error := some "Transaction reverted" },
           [SwapEffect.swapRequest, SwapEffect.sign, SwapEffect.broadcast])

/-- `OneInchDEX.get_token_balance`: `0` without a wallet; otherwise
`balanceOf` raw units scaled by the token's `decimals`, with every
exception (RPC or contract call) caught to `0`. -/
def get_token_balance (wallet_address : Option String)
    (fetch : Except String (ℚ × Nat)) : ℚ :=
  match wallet_address with
  | none => 0
  | some _ =>
    match fetch with
    | Except.error _ => 0
    | Except.ok (balance_raw, decimals) => balance_raw / 10 ^ decimals

/-- `OneInchDEX.get_native_balance`: wei / 1e18, exceptions to `0`. -/
def get_native_balance (wallet_address : Option String)
    (fetch : Except String ℚ) : ℚ :=
  match wallet_address with
  | none => 0
  | some _ =>
    match fetch with
    | Except.error _ => 0
    | Except.ok wei => wei / 1000000000000000000

end OneInchDEX

/-- The exit path's environment succeeding for this row: a positive filled
token amount, a USDT quote-token entry for the chain, an available
token→quote swap quote, and a successful swap execution. -/
def ExitEnvOk (cfg : TradingConfig) (dex : DexEnv) (row : PositionRow) : Prop :=
  0 < row.entry_amount_token ∧
  ∃ qt q, QUOTE_TOKENS_USDT row.chain = some qt ∧
    dex.get_quote row.token_address qt row.entry_amount_token cfg.slippage_tolerance = some q ∧
    (dex.execute_swap q cfg.dry_run).success = true

/-- Default trading configuration (`config.TradingConfig` defaults). -/
def sampleCfg : TradingConfig := {}

/-- A swap oracle that fills exactly at the quote's expected amounts. -/
def fillAtQuote (q : Quote) (_dry_run : Bool) : TradeResult :=
  { success := true
    tx_hash := some "TX"
    amount_in := q.input_amount
    amount_out := q.output_amount
    price := q.price }

/-- Concrete exit quote: 1000 tokens → 110 USDT. -/
def sampleExitQuote : Quote :=
  { input_token := "TOK"
    output_token := "Es9vMFrzaCERmJfrF4H2FYD4KCoNkY11McCe8BenwNYB"
    input_amount := 1000
    output_amount := 110
    price := 11 / 100
    price_impact := 0
    route := "Direct" }

/-- Concrete entry quote: 25 USDT → 625 tokens. -/
def sampleEntryQuote : Quote :=
  { input_token := "Es9vMFrzaCERmJfrF4H2FYD4KCoNkY11McCe8BenwNYB"
    output_token := "TOK"
    input_amount := 25
    output_amount := 625
    price := 25
    price_impact := 0
    route := "Direct" }

/-- Backend oracle for the exit scenarios: price 0.051, full fills. -/
def dexExitW : DexEnv :=
  { get_token_price := fun _ => some (51 / 1000)
    get_token_balance := fun _ => 500
    get_quote := fun _ _ _ _ => some sampleExitQuote
    execute_swap := fillAtQuote }

/-- Backend oracle for the entry scenario: price 0.0395, full fills. -/
def dexEntryW : DexEnv :=
  { get_token_price := fun _ => some (395 / 10000)
    get_token_balance := fun _ => 500
    get_quote := fun _ _ _ _ => some sampleEntryQuote
    execute_swap := fillAtQuote }

/-- Backend oracle whose price feed is down. -/
def dexNoPriceW : DexEnv :=
  { get_token_price := fun _ => none
    get_token_balance := fun _ => 500
    get_quote := fun _ _ _ _ => some sampleExitQuote
    execute_swap := fillAtQuote }

/-- A concrete `active` position: filled 1000 tokens for 100 USDT at
0.04, targets TP 0.05 / SL 0.03. -/
def rowActiveW : PositionRow :=
  { id := 1
    chain := Chain.SOLANA
    token_address := "TOK"
    pair_name := "TOK/USDT"
    entry_amount_quote := 100
    entry_amount_token := 1000
    actual_entry_price := 4 / 100
    target_entry_price := 4 / 100
    take_profit_price := 5 / 100
    stop_loss_price := 3 / 100
    status := PositionStatus.ACTIVE
    created_at := "t0"
    opened_at := some "t1"
    entry_tx_hash := some "E" }

/-- A concrete `pending` position: target entry 0.04, TP 0.05, SL 0.03. -/
def rowPendingW : PositionRow :=
  { id := 2
    chain := Chain.SOLANA
    token_address := "TOK"
    pair_name := "TOK/USDT"
    target_entry_price := 4 / 100
    take_profit_price := 5 / 100
    stop_loss_price := 3 / 100
    status := PositionStatus.PENDING
    created_at := "t0" }

/-- A healthy Jupiter network oracle for the real execution path. -/
def sampleJupNet : JupiterDEX.SwapNet :=
  { swap_response := Except.ok (some "b64tx")
    send_result := Except.ok "SIG" }

/-- A healthy 1inch network oracle for the real execution path. -/
def sampleOneNet : OneInchDEX.SwapNet :=
  { swap_response := Except.ok ()
    send_result := Except.ok "0xhash"
    receipt_status_ok := true
    gas_used := 21000 }

/-- Extraction result of a SHORT, non-test signal message. -/
def extShortW : Extracted :=
  { is_test := false
    direction := some TradeDirection.SHORT
    pair_name := some "ABC/USDT"
    contract_address := some "0x1234567890123456789012345678901234567890"
    entry_price := some (4 / 100)
    take_profit := some (5 / 100)
    stop_loss := some (3 / 100)
    raw_message := "SHORT msg" }

/-- A generic quote for the dry-run theorems. -/
def sampleSwapQuote : Quote :=
  { input_token := "A"
    output_token := "B"
    input_amount := 100
    output_amount := 110
    price := 11 / 10
    price_impact := 0
    route := "Direct" }

/-- A signal for the capacity-gate witness. -/
def sampleSignalW : Signal :=
  { direction := TradeDirection.LONG
    pair_name := "TOK/USDT"
    contract_address := "TOKMINT11111111111111111111111111"
    entry_price := 4 / 100
    take_profit := 5 / 100
    stop_loss := 3 / 100
    raw_message := "raw" }

theorem except_map_some_ok {α β : Type} {f : α → β} {x : Except String α} {y : β}
    (h : x.map f = Except.ok y) : ∃ a, x = Except.ok a ∧ f a = y := by
  cases x with
  | error e => simp [Except.map] at h
  | ok a =>
    simp [Except.map] at h
    exact ⟨a, rfl, h⟩

theorem mkSignal_direction {d : TradeDirection} {pn ca : String} {e tp sl : ℚ}
    {raw : String} {ch : Option Chain} {s : Signal}
    (h : mkSignal d pn ca e tp sl raw ch = Except.ok s) : s.direction = d := by
  unfold mkSignal at h
  repeat' split at h
  all_goals simp_all
  all_goals subst h; rfl

theorem parse_test_signal_long {ext : Extracted} {s : Signal}
    (h : SignalParser.parse_test_signal ext = Except.ok (some s)) :
    s.direction = TradeDirection.LONG := by
  unfold SignalParser.parse_test_signal at h
  split at h
  · simp at h
  · obtain ⟨a, hmk, hsome⟩ := except_map_some_ok h
    cases hsome
    exact mkSignal_direction hmk

/-- C3: whenever the count of `pending`/`active` positions has reached the
configured maximum, `process_signal` rejects the signal, leaves the store
unchanged, and its step trace is exactly the capacity count — neither
chain detection nor the DEX-registry lookup runs. -/
theorem capacity_gate_c3
    (cfg : TradingConfig) (dexes : Chain → Option DexEnv)
    (detect_chain : String → Option Chain) (now : String)
    (store : List PositionRow) (signal : Signal)
    (hfull : cfg.max_positions ≤ PositionManager.count_active_positions store) :
    PositionManager.process_signal cfg dexes detect_chain now store signal =
      (none, store, [PositionManager.SigStep.countActive]) := by
  unfold PositionManager.process_signal
  rw [if_pos hfull]

theorem capacity_gate_c3_witness :
    PositionManager.process_signal sampleCfg (fun _ => some dexExitW)
      (fun _ => some Chain.SOLANA) "t" [rowPendingW] sampleSignalW =
      (none, [rowPendingW], [PositionManager.SigStep.countActive]) :=
  capacity_gate_c3 _ _ _ _ _ _ (by decide)

/-- C6 counterexample: with an uninitialized wallet (`keypair`/`account`
is `None`), `execute_swap` with `dry_run = true` returns `success = false`
on both backends, so the claim as stated (success for every quote) fails. -/
theorem dry_run_wallet_counterexample_c6 :
    (JupiterDEX.execute_swap none sampleJupNet sampleSwapQuote true).1.success = false
    ∧ (OneInchDEX.execute_swap none sampleOneNet sampleSwapQuote true).1.success = false :=
  ⟨rfl, rfl⟩

/-- C6 (amended): for every quote, when the backend's wallet is
initialized, `execute_swap` with `dry_run = true` returns a successful
`TradeResult` carrying the quote's expected input amount, output amount
and price, with the `DRY_RUN_NO_TX` sentinel and an empty real-execution
effect trace (no swap request, signing or broadcast), on both backends. -/
theorem dry_run_swap_c6 (kp acct : String) (jnet : JupiterDEX.SwapNet)
    (onet : OneInchDEX.SwapNet) (quote : Quote) :
    JupiterDEX.execute_swap (some kp) jnet quote true =
      ({ success := true, tx_hash := some "DRY_RUN_NO_TX",
         amount_in := quote.input_amount, amount_out := quote.output_amount,
         price := quote.price }, [])
    ∧ OneInchDEX.execute_swap (some acct) onet quote true =
      ({ success := true, tx_hash := some "DRY_RUN_NO_TX",
         amount_in := quote.input_amount, amount_out := quote.output_amount,
         price := quote.price }, []) :=
  ⟨rfl, rfl⟩

/-- C7: the intake parser only ever yields LONG signals — any parsed
signal has direction LONG (test signals are constructed LONG), and a
non-test message whose extracted direction is SHORT parses to `None`, so
it never reaches `process_signal` and no position is created from it. -/
theorem long_only_intake_c7 (ext : Extracted) (s : Signal) :
    (SignalParser.parse ext = Except.ok (some s) → s.direction = TradeDirection.LONG)
    ∧ (ext.is_test = false → ext.direction = some TradeDirection.SHORT →
        SignalParser.parse ext = Except.ok none) := by
  constructor
  · intro h
    unfold SignalParser.parse at h
    cases htest : SignalParser.parse_test_signal ext with
    | error e => simp [htest] at h
    | ok o =>
      cases o with
      | some s0 =>
        simp [htest] at h
        subst h
        exact parse_test_signal_long htest
      | none =>
        simp only [htest] at h
        cases hdir : ext.direction with
        | none => simp [hdir] at h
        | some dir =>
          cases dir with
          | SHORT => simp [hdir] at h
          | LONG =>
            simp only [hdir] at h
            cases hpair : ext.pair_name with
            | none => simp [hpair] at h
            | some pair =>
              simp only [hpair] at h
              cases hca : ext.contract_address with
              | none => simp [hca] at h
              | some ca =>
                simp only [hca] at h
                split at h
                · simp at h
                · cases hmk : mkSignal TradeDirection.LONG pair ca
                      (ext.entry_price.getD 0) (ext.take_profit.getD 0)
                      (ext.stop_loss.getD 0) ext.raw_message with
                  | error e => rw [hmk] at h; simp at h
                  | ok s1 =>
                    rw [hmk] at h
                    simp at h
                    subst h
                    exact mkSignal_direction hmk
  · intro hnt hdir
    simp [SignalParser.parse, SignalParser.parse_test_signal, hnt, hdir]

theorem long_only_intake_c7_witness :
    extShortW.is_test = false ∧ extShortW.direction = some TradeDirection.SHORT ∧
      SignalParser.parse extShortW = Except.ok none :=
  ⟨rfl, rfl, (long_only_intake_c7 extShortW sampleSignalW).2 rfl rfl⟩

/-- C8: on any retrieval error (RPC/contract exception, embedded as
`Except.error`), `get_token_balance` and `get_native_balance` of both
backends return the neutral value 0; the functions are total, so no
exception reaches the caller. -/
theorem balance_error_zero_c8 (wallet : Option String) (e : String) :
    JupiterDEX.get_token_balance wallet (Except.error e) = 0
    ∧ JupiterDEX.get_native_balance wallet (Except.error e) = 0
    ∧ OneInchDEX.get_token_balance wallet (Except.error e) = 0
    ∧ OneInchDEX.get_native_balance wallet (Except.error e) = 0 := by
  cases wallet <;> exact ⟨rfl, rfl, rfl, rfl⟩

/-- C9: `Position.calculate_pnl` with an actual entry price of 0 takes the
`actual_entry_price <= 0` guard, never divides, and returns the neutral
pair `(0, 0)` for every exit price. -/
theorem zero_entry_pnl_c9 (row : PositionRow) (exit_price : ℚ)
    (h : row.actual_entry_price = 0) :
    row.calculate_pnl exit_price = (0, 0) := by
  unfold PositionRow.calculate_pnl
  rw [h]
  simp

theorem zero_entry_pnl_c9_witness :
    rowPendingW.actual_entry_price = 0 ∧ rowPendingW.calculate_pnl (5 / 100) = (0, 0) :=
  ⟨rfl, zero_entry_pnl_c9 rowPendingW (5 / 100) rfl⟩

theorem execute_exit_success_eq (cfg : TradingConfig) (dex : DexEnv) (now : String)
    (row : PositionRow) (p : ℚ) (tag : PositionManager.ExitTag) (qt : String) (q : Quote)
    (htok : 0 < row.entry_amount_token)
    (hqt : QUOTE_TOKENS_USDT row.chain = some qt)
    (hq : dex.get_quote row.token_address qt row.entry_amount_token
      cfg.slippage_tolerance = some q)
    (hs : (dex.execute_swap q cfg.dry_run).success = true) :
    PositionManager.execute_exit_with_callback cfg dex now row p tag =
      ({ row with
         status := if tag = PositionManager.ExitTag.tp then PositionStatus.CLOSED_TP
                   else PositionStatus.CLOSED_SL
         closed_at := some now
         exit_tx_hash := (dex.execute_swap q cfg.dry_run).tx_hash
         exit_price := some p
         pnl_percent := some (if 0 < row.actual_entry_price then
             ((p - row.actual_entry_price) / row.actual_entry_price) * 100 else 0)
         pnl_absolute := some ((dex.execute_swap q cfg.dry_run).amount_out - 0) },
       some (if 0 < row.actual_entry_price then
           ((p - row.actual_entry_price) / row.actual_entry_price) * 100 else 0)) := by
  unfold PositionManager.execute_exit_with_callback
  simp only [PositionManager.get_open_positions_row]
  rw [if_neg (not_le.mpr htok), hqt]
  simp only [hq, hs, if_true]
  rfl

theorem execute_entry_success_eq (cfg : TradingConfig) (dex : DexEnv) (now : String)
    (row : PositionRow) (p : ℚ) (qt : String) (q : Quote)
    (hqt : QUOTE_TOKENS_USDT row.chain = some qt)
    (hbal : 0 < dex.get_token_balance qt * cfg.capital_percent)
    (hq : dex.get_quote qt row.token_address
      (dex.get_token_balance qt * cfg.capital_percent) cfg.slippage_tolerance = some q)
    (hs : (dex.execute_swap q cfg.dry_run).success = true) :
    PositionManager.execute_entry cfg dex now row p =
      { row with
        status := PositionStatus.ACTIVE
        entry_amount_quote := dex.get_token_balance qt * cfg.capital_percent
        entry_amount_token := (dex.execute_swap q cfg.dry_run).amount_out
        actual_entry_price := (dex.execute_swap q cfg.dry_run).price
        opened_at := some now
        entry_tx_hash := (dex.execute_swap q cfg.dry_run).tx_hash } := by
  unfold PositionManager.execute_entry
  simp only [PositionManager.get_open_positions_row]
  rw [hqt]
  simp only [if_neg (not_le.mpr hbal), hq, hs, if_true]

theorem check_position_active_tp (cfg : TradingConfig) (dexes : Chain → Option DexEnv)
    (now : String) (row : PositionRow) (dex : DexEnv) (p : ℚ)
    (hst : row.status = PositionStatus.ACTIVE)
    (hdex : dexes row.chain = some dex)
    (hp : dex.get_token_price row.token_address = some p) (hp0 : p ≠ 0)
    (htp : row.take_profit_price ≤ p) :
    PositionManager.check_position cfg dexes now row =
      PositionManager.execute_exit cfg dex now row p PositionManager.ExitTag.tp := by
  unfold PositionManager.check_position
  simp only [PositionManager.get_open_positions_row, hdex, hp, hst, ge_iff_le]
  rw [if_neg hp0, if_neg (by simp), if_pos trivial, if_pos htp]

theorem check_position_active_sl (cfg : TradingConfig) (dexes : Chain → Option DexEnv)
    (now : String) (row : PositionRow) (dex : DexEnv) (p : ℚ)
    (hst : row.status = PositionStatus.ACTIVE)
    (hdex : dexes row.chain = some dex)
    (hp : dex.get_token_price row.token_address = some p) (hp0 : p ≠ 0)
    (hlt : p < row.take_profit_price) (hsl : p ≤ row.stop_loss_price) :
    PositionManager.check_position cfg dexes now row =
      PositionManager.execute_exit cfg dex now row p PositionManager.ExitTag.sl := by
  unfold PositionManager.check_position
  simp only [PositionManager.get_open_positions_row, hdex, hp, hst, ge_iff_le]
  rw [if_neg hp0, if_neg (by simp), if_pos trivial, if_neg (not_le.mpr hlt), if_pos hsl]

theorem check_position_active_hold (cfg : TradingConfig) (dexes : Chain → Option DexEnv)
    (now : String) (row : PositionRow) (dex : DexEnv) (p : ℚ)
    (hst : row.status = PositionStatus.ACTIVE)
    (hdex : dexes row.chain = some dex)
    (hp : dex.get_token_price row.token_address = some p) (hp0 : p ≠ 0)
    (hsl : row.stop_loss_price < p) (hlt : p < row.take_profit_price) :
    PositionManager.check_position cfg dexes now row = row := by
  unfold PositionManager.check_position
  simp only [PositionManager.get_open_positions_row, hdex, hp, hst, ge_iff_le]
  rw [if_neg hp0, if_neg (by simp), if_pos trivial, if_neg (not_le.mpr hlt),
    if_neg (not_le.mpr hsl)]

theorem check_position_pending_entry (cfg : TradingConfig) (dexes : Chain → Option DexEnv)
    (now : String) (row : PositionRow) (dex : DexEnv) (p : ℚ)
    (hst : row.status = PositionStatus.PENDING)
    (hdex : dexes row.chain = some dex)
    (hp : dex.get_token_price row.token_address = some p) (hp0 : p ≠ 0)
    (hle : p ≤ row.target_entry_price) :
    PositionManager.check_position cfg dexes now row =
      PositionManager.execute_entry cfg dex now row p := by
  unfold PositionManager.check_position
  simp only [PositionManager.get_open_positions_row, hdex, hp, hst]
  rw [if_neg hp0, if_pos trivial, if_pos hle]

theorem check_position_pending_skip (cfg : TradingConfig) (dexes : Chain → Option DexEnv)
    (now : String) (row : PositionRow) (dex : DexEnv) (p : ℚ)
    (hst : row.status = PositionStatus.PENDING)
    (hdex : dexes row.chain = some dex)
    (hp : dex.get_token_price row.token_address = some p) (hp0 : p ≠ 0)
    (hgt : row.target_entry_price < p) :
    PositionManager.check_position cfg dexes now row = row := by
  unfold PositionManager.check_position
  simp only [PositionManager.get_open_positions_row, hdex, hp, hst]
  rw [if_neg hp0, if_pos trivial, if_neg (not_le.mpr hgt)]

/-- C1: for an `active` position with a successfully retrieved (truthy)
current price, the monitoring step closes it as `closed_tp` when
price ≥ take-profit (regardless of the stop-loss condition — TP is tested
first) and as `closed_sl` when price < TP and price ≤ stop-loss, provided
the exit environment (quote and swap) succeeds; a price strictly between
SL and TP leaves the row — status included — completely unchanged. -/
theorem exit_decision_c1 (cfg : TradingConfig) (dexes : Chain → Option DexEnv)
    (now : String) (row : PositionRow) (dex : DexEnv) (p : ℚ)
    (hst : row.status = PositionStatus.ACTIVE)
    (hdex : dexes row.chain = some dex)
    (hp : dex.get_token_price row.token_address = some p)
    (hp0 : p ≠ 0) :
    (row.take_profit_price ≤ p → ExitEnvOk cfg dex row →
      (PositionManager.check_position cfg dexes now row).status = PositionStatus.CLOSED_TP)
    ∧ (p < row.take_profit_price → p ≤ row.stop_loss_price → ExitEnvOk cfg dex row →
      (PositionManager.check_position cfg dexes now row).status = PositionStatus.CLOSED_SL)
    ∧ (row.stop_loss_price < p → p < row.take_profit_price →
      PositionManager.check_position cfg dexes now row = row) := by
  refine ⟨?_, ?_, ?_⟩
  · rintro htp ⟨htok, qt, q, hqt, hq, hs⟩
    rw [check_position_active_tp cfg dexes now row dex p hst hdex hp hp0 htp,
      PositionManager.execute_exit,
      execute_exit_success_eq cfg dex now row p PositionManager.ExitTag.tp qt q htok hqt hq hs]
    rfl
  · rintro hlt hsl ⟨htok, qt, q, hqt, hq, hs⟩
    rw [check_position_active_sl cfg dexes now row dex p hst hdex hp hp0 hlt hsl,
      PositionManager.execute_exit,
      execute_exit_success_eq cfg dex now row p PositionManager.ExitTag.sl qt q htok hqt hq hs]
    rfl
  · intro hsl hlt
    exact check_position_active_hold cfg dexes now row dex p hst hdex hp hp0 hsl hlt

theorem exit_decision_c1_witness :
    (PositionManager.check_position sampleCfg (fun _ => some dexExitW) "t"
      rowActiveW).status = PositionStatus.CLOSED_TP :=
  (exit_decision_c1 sampleCfg (fun _ => some dexExitW) "t" rowActiveW dexExitW
      (51 / 1000) rfl rfl rfl (by norm_num)).1 (by norm_num [rowActiveW])
    ⟨by norm_num [rowActiveW], "Es9vMFrzaCERmJfrF4H2FYD4KCoNkY11McCe8BenwNYB",
      sampleExitQuote, rfl, rfl, rfl⟩

/-- C2: for a `pending` position with a successfully retrieved (truthy)
current price, entry is attempted exactly when price ≤ target entry
price — on a successful swap the row becomes `active` with the fill
amounts (`amount_out`, `price`, `tx_hash`) taken from the `TradeResult` —
and when price > target the row stays `pending`, completely unchanged. -/
theorem entry_decision_c2 (cfg : TradingConfig) (dexes : Chain → Option DexEnv)
    (now : String) (row : PositionRow) (dex : DexEnv) (p : ℚ)
    (hst : row.status = PositionStatus.PENDING)
    (hdex : dexes row.chain = some dex)
    (hp : dex.get_token_price row.token_address = some p)
    (hp0 : p ≠ 0) :
    (∀ qt q, p ≤ row.target_entry_price →
      QUOTE_TOKENS_USDT row.chain = some qt →
      0 < dex.get_token_balance qt * cfg.capital_percent →
      dex.get_quote qt row.token_address
        (dex.get_token_balance qt * cfg.capital_percent) cfg.slippage_tolerance = some q →
      (dex.execute_swap q cfg.dry_run).success = true →
      PositionManager.check_position cfg dexes now row =
        { row with
          status := PositionStatus.ACTIVE
          entry_amount_quote := dex.get_token_balance qt * cfg.capital_percent
          entry_amount_token := (dex.execute_swap q cfg.dry_run).amount_out
          actual_entry_price := (dex.execute_swap q cfg.dry_run).price
          opened_at := some now
          entry_tx_hash := (dex.execute_swap q cfg.dry_run).tx_hash })
    ∧ (row.target_entry_price < p →
      PositionManager.check_position cfg dexes now row = row) := by
  constructor
  · intro qt q hle hqt hbal hq hs
    rw [check_position_pending_entry cfg dexes now row dex p hst hdex hp hp0 hle,
      execute_entry_success_eq cfg dex now row p qt q hqt hbal hq hs]
  · intro hgt
    exact check_position_pending_skip cfg dexes now row dex p hst hdex hp hp0 hgt

theorem entry_decision_c2_witness :
    PositionManager.check_position sampleCfg (fun _ => some dexEntryW) "t1" rowPendingW =
      { rowPendingW with
        status := PositionStatus.ACTIVE
        entry_amount_quote := 25
        entry_amount_token := 625
        actual_entry_price := 25
        opened_at := some "t1"
        entry_tx_hash := some "TX" } := by
  have h := (entry_decision_c2 sampleCfg (fun _ => some dexEntryW) "t1" rowPendingW
      dexEntryW (395 / 10000) rfl rfl rfl (by norm_num)).1
    "Es9vMFrzaCERmJfrF4H2FYD4KCoNkY11McCe8BenwNYB" sampleEntryQuote
    (by norm_num [rowPendingW]) rfl (by norm_num [dexEntryW, sampleCfg]) rfl rfl
  rw [h]
  norm_num [dexEntryW, fillAtQuote, sampleEntryQuote, sampleCfg]

/-- C10: on a successful exit, the stored `exit_price` is exactly the
polled current price and the stored `pnl_percent` — which is also the
value handed to the `on_position_closed` callback — is computed from that
polled price and the stored entry price; neither mentions the swap's
realized `price`.  Only `pnl_absolute` uses the swap's realized
`amount_out` (minus the dictionary default 0, see C4). -/
theorem exit_price_from_poll_c10 (cfg : TradingConfig) (dex : DexEnv) (now : String)
    (row : PositionRow) (p : ℚ) (tag : PositionManager.ExitTag) (qt : String) (q : Quote)
    (htok : 0 < row.entry_amount_token)
    (hqt : QUOTE_TOKENS_USDT row.chain = some qt)
    (hq : dex.get_quote row.token_address qt row.entry_amount_token
      cfg.slippage_tolerance = some q)
    (hs : (dex.execute_swap q cfg.dry_run).success = true) :
    (PositionManager.execute_exit_with_callback cfg dex now row p tag).1.exit_price = some p
    ∧ (PositionManager.execute_exit_with_callback cfg dex now row p tag).1.pnl_percent =
      some (if 0 < row.actual_entry_price then
        ((p - row.actual_entry_price) / row.actual_entry_price) * 100 else 0)
    ∧ (PositionManager.execute_exit_with_callback cfg dex now row p tag).2 =
      (PositionManager.execute_exit_with_callback cfg dex now row p tag).1.pnl_percent
    ∧ (PositionManager.execute_exit_with_callback cfg dex now row p tag).1.pnl_absolute =
      some ((dex.execute_swap q cfg.dry_run).amount_out - 0) := by
  rw [execute_exit_success_eq cfg dex now row p tag qt q htok hqt hq hs]
  exact ⟨rfl, rfl, rfl, rfl⟩

theorem exit_price_from_poll_c10_witness :
    (PositionManager.execute_exit_with_callback sampleCfg dexExitW "t2" rowActiveW
      (51 / 1000) PositionManager.ExitTag.tp).1.exit_price = some (51 / 1000) ∧
    (PositionManager.execute_exit_with_callback sampleCfg dexExitW "t2" rowActiveW
      (51 / 1000) PositionManager.ExitTag.tp).1.pnl_percent = some (55 / 2) := by
  have h := exit_price_from_poll_c10 sampleCfg dexExitW "t2" rowActiveW (51 / 1000)
    PositionManager.ExitTag.tp "Es9vMFrzaCERmJfrF4H2FYD4KCoNkY11McCe8BenwNYB"
    sampleExitQuote (by norm_num [rowActiveW]) rfl rfl rfl
  refine ⟨h.1, ?_⟩
  rw [h.2.1]
  norm_num [rowActiveW]

theorem execute_entry_cases (cfg : TradingConfig) (dex : DexEnv) (now : String)
    (row : PositionRow) (p : ℚ) :
    PositionManager.execute_entry cfg dex now row p = row
    ∨ (PositionManager.execute_entry cfg dex now row p).status = PositionStatus.ACTIVE := by
  unfold PositionManager.execute_entry
  simp only [PositionManager.get_open_positions_row]
  split
  · exact Or.inl rfl
  · split
    · exact Or.inl rfl
    · split
      · exact Or.inl rfl
      · split
        · exact Or.inr rfl
        · exact Or.inl rfl

theorem execute_exit_cases (cfg : TradingConfig) (dex : DexEnv) (now : String)
    (row : PositionRow) (p : ℚ) (tag : PositionManager.ExitTag) :
    PositionManager.execute_exit cfg dex now row p tag = row
    ∨ (PositionManager.execute_exit cfg dex now row p tag).status = PositionStatus.CLOSED_TP
    ∨ (PositionManager.execute_exit cfg dex now row p tag).status = PositionStatus.CLOSED_SL := by
  unfold PositionManager.execute_exit PositionManager.execute_exit_with_callback
  simp only [PositionManager.get_open_positions_row]
  split
  · exact Or.inl rfl
  · split
    · exact Or.inl rfl
    · split
      · exact Or.inl rfl
      · split
        · cases tag with
          | tp => exact Or.inr (Or.inl rfl)
          | sl => exact Or.inr (Or.inr rfl)
        · exact Or.inl rfl

theorem execute_entry_quote_fail (cfg : TradingConfig) (dex : DexEnv) (now : String)
    (row : PositionRow) (p : ℚ)
    (hqn : ∀ a b amt s, dex.get_quote a b amt s = none) :
    PositionManager.execute_entry cfg dex now row p = row := by
  unfold PositionManager.execute_entry
  simp only [PositionManager.get_open_positions_row]
  split
  · rfl
  · split
    · rfl
    · simp only [hqn]

theorem execute_exit_quote_fail (cfg : TradingConfig) (dex : DexEnv) (now : String)
    (row : PositionRow) (p : ℚ) (tag : PositionManager.ExitTag)
    (hqn : ∀ a b amt s, dex.get_quote a b amt s = none) :
    PositionManager.execute_exit cfg dex now row p tag = row := by
  unfold PositionManager.execute_exit PositionManager.execute_exit_with_callback
  simp only [PositionManager.get_open_positions_row]
  split
  · rfl
  · split
    · rfl
    · simp only [hqn]

theorem execute_entry_swap_fail (cfg : TradingConfig) (dex : DexEnv) (now : String)
    (row : PositionRow) (p : ℚ)
    (hfail : ∀ q b, (dex.execute_swap q b).success = false) :
    PositionManager.execute_entry cfg dex now row p = row := by
  unfold PositionManager.execute_entry
  simp only [PositionManager.get_open_positions_row]
  split
  · rfl
  · split
    · rfl
    · split
      · rfl
      · simp [hfail]

theorem execute_exit_swap_fail (cfg : TradingConfig) (dex : DexEnv) (now : String)
    (row : PositionRow) (p : ℚ) (tag : PositionManager.ExitTag)
    (hfail : ∀ q b, (dex.execute_swap q b).success = false) :
    PositionManager.execute_exit cfg dex now row p tag = row := by
  unfold PositionManager.execute_exit PositionManager.execute_exit_with_callback
  simp only [PositionManager.get_open_positions_row]
  split
  · rfl
  · split
    · rfl
    · split
      · rfl
      · simp [hfail]

theorem execute_entry_balance_fail (cfg : TradingConfig) (dex : DexEnv) (now : String)
    (row : PositionRow) (p : ℚ) (qt : String)
    (hqt : QUOTE_TOKENS_USDT row.chain = some qt)
    (hbal : dex.get_token_balance qt * cfg.capital_percent ≤ 0) :
    PositionManager.execute_entry cfg dex now row p = row := by
  unfold PositionManager.execute_entry
  simp only [PositionManager.get_open_positions_row, hqt]
  rw [if_pos hbal]

theorem check_position_shape (cfg : TradingConfig) (dexes : Chain → Option DexEnv)
    (now : String) (row : PositionRow) :
    PositionManager.check_position cfg dexes now row = row
    ∨ ∃ dex p, dexes row.chain = some dex ∧
        dex.get_token_price row.token_address = some p ∧ p ≠ 0 ∧
        ((row.status = PositionStatus.PENDING ∧ p ≤ row.target_entry_price ∧
          PositionManager.check_position cfg dexes now row =
            PositionManager.execute_entry cfg dex now row p)
        ∨ (row.status = PositionStatus.ACTIVE ∧
          ∃ tag, PositionManager.check_position cfg dexes now row =
            PositionManager.execute_exit cfg dex now row p tag)) := by
  cases hdex : dexes row.chain with
  | none =>
    left
    simp [PositionManager.check_position, PositionManager.get_open_positions_row, hdex]
  | some dex =>
    cases hp : dex.get_token_price row.token_address with
    | none =>
      left
      simp [PositionManager.check_position, PositionManager.get_open_positions_row, hdex, hp]
    | some p =>
      by_cases hp0 : p = 0
      · left
        simp [PositionManager.check_position, PositionManager.get_open_positions_row,
          hdex, hp, hp0]
      · cases hst : row.status with
        | PENDING =>
          by_cases hle : p ≤ row.target_entry_price
          · right
            exact ⟨dex, p, rfl, hp, hp0, Or.inl ⟨rfl, hle,
              check_position_pending_entry cfg dexes now row dex p hst hdex hp hp0 hle⟩⟩
          · left
            exact check_position_pending_skip cfg dexes now row dex p hst hdex hp hp0
              (not_le.mp hle)
        | ACTIVE =>
          by_cases htp : row.take_profit_price ≤ p
          · right
            exact ⟨dex, p, rfl, hp, hp0, Or.inr ⟨rfl, PositionManager.ExitTag.tp,
              check_position_active_tp cfg dexes now row dex p hst hdex hp hp0 htp⟩⟩
          · by_cases hsl : p ≤ row.stop_loss_price
            · right
              exact ⟨dex, p, rfl, hp, hp0, Or.inr ⟨rfl, PositionManager.ExitTag.sl,
                check_position_active_sl cfg dexes now row dex p hst hdex hp hp0
                  (not_le.mp htp) hsl⟩⟩
            · left
              exact check_position_active_hold cfg dexes now row dex p hst hdex hp hp0
                (not_le.mp hsl) (not_le.mp htp)
        | CLOSED_TP =>
          left
          simp [PositionManager.check_position, PositionManager.get_open_positions_row,
            hdex, hp, hp0, hst]
        | CLOSED_SL =>
          left
          simp [PositionManager.check_position, PositionManager.get_open_positions_row,
            hdex, hp, hp0, hst]
        | CLOSED_MANUAL =>
          left
          simp [PositionManager.check_position, PositionManager.get_open_positions_row,
            hdex, hp, hp0, hst]
        | FAILED =>
          left
          simp [PositionManager.check_position, PositionManager.get_open_positions_row,
            hdex, hp, hp0, hst]

/-- C5: failure cases of the monitoring step leave the stored row
unchanged — no registered DEX, no price, a falsy (0) price, an unavailable
quote, a non-positive computed trade size, or a failed swap all yield the
identical row — and the step never produces status `failed` (any `failed`
status after the step was already there before it). -/
theorem failure_leaves_row_c5 (cfg : TradingConfig) (dexes : Chain → Option DexEnv)
    (now : String) (row : PositionRow) :
    ((PositionManager.check_position cfg dexes now row).status = PositionStatus.FAILED →
      row.status = PositionStatus.FAILED)
    ∧ (dexes row.chain = none → PositionManager.check_position cfg dexes now row = row)
    ∧ (∀ dex, dexes row.chain = some dex →
        dex.get_token_price row.token_address = none →
        PositionManager.check_position cfg dexes now row = row)
    ∧ (∀ dex, dexes row.chain = some dex →
        dex.get_token_price row.token_address = some 0 →
        PositionManager.check_position cfg dexes now row = row)
    ∧ (∀ dex, dexes row.chain = some dex →
        (∀ a b amt s, dex.get_quote a b amt s = none) →
        PositionManager.check_position cfg dexes now row = row)
    ∧ (∀ dex qt, row.status = PositionStatus.PENDING →
        dexes row.chain = some dex →
        QUOTE_TOKENS_USDT row.chain = some qt →
        dex.get_token_balance qt * cfg.capital_percent ≤ 0 →
        PositionManager.check_position cfg dexes now row = row)
    ∧ (∀ dex, dexes row.chain = some dex →
        (∀ q b, (dex.execute_swap q b).success = false) →
        PositionManager.check_position cfg dexes now row = row) := by
  refine ⟨?_, ?_, ?_, ?_, ?_, ?_, ?_⟩
  · intro h
    rcases check_position_shape cfg dexes now row with heq | ⟨dex, p, _, _, _, hcase⟩
    · rwa [heq] at h
    · rcases hcase with ⟨_, _, hentry⟩ | ⟨_, tag, hexit⟩
      · rcases execute_entry_cases cfg dex now row p with he | he
        · rw [hentry, he] at h
          exact h
        · rw [hentry, he] at h
          exact absurd h (by simp)
      · rcases execute_exit_cases cfg dex now row p tag with he | he | he
        · rw [hexit, he] at h
          exact h
        · rw [hexit, he] at h
          exact absurd h (by simp)
        · rw [hexit, he] at h
          exact absurd h (by simp)
  · intro h
    simp [PositionManager.check_position, PositionManager.get_open_positions_row, h]
  · intro dex hdex hpn
    simp [PositionManager.check_position, PositionManager.get_open_positions_row, hdex, hpn]
  · intro dex hdex hpz
    simp [PositionManager.check_position, PositionManager.get_open_positions_row, hdex, hpz]
  · intro dex hdex hqn
    rcases check_position_shape cfg dexes now row with heq | ⟨dex', p, hdex', _, _, hcase⟩
    · exact heq
    · rw [hdex] at hdex'
      cases hdex'
      rcases hcase with ⟨_, _, hentry⟩ | ⟨_, tag, hexit⟩
      · rw [hentry]
        exact execute_entry_quote_fail cfg dex now row p hqn
      · rw [hexit]
        exact execute_exit_quote_fail cfg dex now row p tag hqn
  · intro dex qt hst hdex hqt hbal
    rcases check_position_shape cfg dexes now row with heq | ⟨dex', p, hdex', _, _, hcase⟩
    · exact heq
    · rw [hdex] at hdex'
      cases hdex'
      rcases hcase with ⟨_, _, hentry⟩ | ⟨hact, _, _⟩
      · rw [hentry]
        exact execute_entry_balance_fail cfg dex now row p qt hqt hbal
      · rw [hst] at hact
        exact absurd hact (by simp)
  · intro dex hdex hfail
    rcases check_position_shape cfg dexes now row with heq | ⟨dex', p, hdex', _, _, hcase⟩
    · exact heq
    · rw [hdex] at hdex'
      cases hdex'
      rcases hcase with ⟨_, _, hentry⟩ | ⟨_, tag, hexit⟩
      · rw [hentry]
        exact execute_entry_swap_fail cfg dex now row p hfail
      · rw [hexit]
        exact execute_exit_swap_fail cfg dex now row p tag hfail

theorem failure_leaves_row_c5_witness :
    PositionManager.check_position sampleCfg (fun _ => some dexNoPriceW) "t3" rowActiveW =
      rowActiveW :=
  (failure_leaves_row_c5 sampleCfg (fun _ => some dexNoPriceW) "t3" rowActiveW).2.2.1
    dexNoPriceW rfl rfl

/-- C4: evaluating `_execute_exit` on an active position entered for 100
quote units (stored on the row) with a swap realizing 110 quote units out:
the recorded `pnl_percent` is 25 as the spec states, but the recorded
`pnl_absolute` is 110, not 110 − 100 = 10 — because the monitoring
`SELECT` of `_get_open_positions` omits `entry_amount_quote`, the
`pos_data.get("entry_amount_quote", 0)` subtrahend is always 0. -/
theorem pnl_absolute_bug_c4 :
    rowActiveW.entry_amount_quote = 100
    ∧ (PositionManager.execute_exit sampleCfg dexExitW "t2" rowActiveW (5 / 100)
        PositionManager.ExitTag.tp).pnl_percent = some 25
    ∧ (PositionManager.execute_exit sampleCfg dexExitW "t2" rowActiveW (5 / 100)
        PositionManager.ExitTag.tp).pnl_absolute = some 110 := by
  have h := execute_exit_success_eq sampleCfg dexExitW "t2" rowActiveW (5 / 100)
    PositionManager.ExitTag.tp "Es9vMFrzaCERmJfrF4H2FYD4KCoNkY11McCe8BenwNYB"
    sampleExitQuote (by norm_num [rowActiveW]) rfl rfl rfl
  refine ⟨rfl, ?_, ?_⟩ <;>
    rw [PositionManager.execute_exit, h] <;>
    norm_num [rowActiveW, dexExitW, fillAtQuote, sampleExitQuote]
